import Mathlib

/-!
Shallow embedding of the chart-acquisition core of the meteobriefing
repository (`src/main/services/downloader.service.ts`): the concurrent
downloader (`DownloaderService`) and the session automation controller
(`PrometeoService`), together with theorems about their behaviour.

External library primitives that the code calls (SHA-256, base64, the
browser transport) are modelled as parameters of an environment record;
everything the repository itself computes is translated directly.
-/

namespace Meteobriefing

/-! ### Constants (src/main/lib/constants.ts and downloader.service.ts) -/

def PROMETEO_BASE_URL : String := "https://prometeo2.meteoam.it"

/-- Minimum valid image size (1 KB) — anything smaller is likely an error
page or empty (downloader.service.ts line 9). -/
def MIN_IMAGE_SIZE : Nat := 1024

/-! ### String helpers (JS `String.prototype.includes`) -/

/-- Does `needle` occur contiguously inside `hay`? (JS `includes`). -/
def listIncl : List Char → List Char → Bool
  | _, [] => false
  | needle, c :: rest => needle.isPrefixOf (c :: rest) || listIncl needle rest

/-- JS `hay.includes(needle)`; the empty needle is included everywhere. -/
def strIncludes (hay needle : String) : Bool :=
  needle = "" || listIncl needle.data hay.data

/-- ASCII lower-casing of one character (JS `toLowerCase` on the ASCII
range, which is all that URLs contain). -/
def lowerChar (c : Char) : Char :=
  if 65 ≤ c.toNat ∧ c.toNat ≤ 90 then Char.ofNat (c.toNat + 32) else c

/-- JS `hay.toLowerCase().includes(needle)` at the character-list level. -/
def lowerIncludes (hay needle : String) : Bool :=
  needle = "" || listIncl needle.data (hay.data.map lowerChar)

/-- JS `s.startsWith(pre)` at the character-list level. -/
def strStarts (s pre : String) : Bool :=
  pre.data.isPrefixOf s.data

instance {ε α : Type} [DecidableEq ε] [DecidableEq α] :
    DecidableEq (Except ε α) := fun a b =>
  match a, b with
  | Except.error e, Except.error f =>
    if h : e = f then isTrue (by rw [h])
    else isFalse (fun hh => h (by injection hh))
  | Except.ok x, Except.ok y =>
    if h : x = y then isTrue (by rw [h])
    else isFalse (fun hh => h (by injection hh))
  | Except.error _, Except.ok _ => isFalse (fun hh => Except.noConfusion hh)
  | Except.ok _, Except.error _ => isFalse (fun hh => Except.noConfusion hh)

/-! ### HTTP responses, filesystem state -/

/-- One HTTP response as observed through `session.fetch`: `ok` status flag,
numeric status, the `content-type` header (`""` models an absent header,
matching the `|| ''` in the source) and the body bytes. -/
structure HttpResponse where
  ok : Bool
  status : Nat
  contentType : String
  body : List Nat
deriving DecidableEq

/-- The cache directory contents: path to size of the file stored there,
`none` when no file exists (the code only ever inspects existence and
size via `existsSync` / `statSync(...).size`). -/
def Fs : Type := String → Option Nat

def fsWrite (fs : Fs) (p : String) (n : Nat) : Fs :=
  fun q => if q = p then some n else fs q

def fsErase (fs : Fs) (p : String) : Fs :=
  fun q => if q = p then none else fs q

/-! ### DownloaderService -/

/-- Environment of one `downloadCharts` run: the cache directory path, the
SHA-256 prefix (an external crypto primitive, abstracted), and the response
the authenticated transport yields for the k-th fetch of a URL. -/
structure DownloadEnv where
  cacheDir : String
  sha256hex16 : String → String
  fetchAttempt : String → Nat → HttpResponse

/-- Extension choice (worker, line 64): `.png` iff the lowercased URL
contains `.png`, else `.jpg`. -/
def chartExt (url : String) : String :=
  if lowerIncludes url ".png" then ".png" else ".jpg"

/-- The computed cache path `join(cacheDir, hash + ext)` (worker, line 65). -/
def localPath (env : DownloadEnv) (url : String) : String :=
  env.cacheDir ++ "/" ++ env.sha256hex16 url ++ chartExt url

/-- A URL is processed only if non-empty and `http`-prefixed
(worker, line 56: `!item.url || !item.url.startsWith('http')` rejects). -/
def validUrl (url : String) : Bool :=
  !(url = "") && strStarts url "http"

/-- Outcome of one `downloadFile` call (lines 121-146): it throws before any
write when the status is not ok or the content type contains `text/html`;
otherwise the whole body is written to the destination path. -/
inductive AttemptOutcome where
  | failedNoWrite
  | wrote (size : Nat)
deriving DecidableEq

def downloadFile (r : HttpResponse) : AttemptOutcome :=
  if !r.ok then AttemptOutcome.failedNoWrite
  else if strIncludes r.contentType "text/html" then AttemptOutcome.failedNoWrite
  else AttemptOutcome.wrote r.body.length

/-- Whether one attempt succeeds overall: `downloadFile` completes and the
written file passes the worker's size check (lines 91-94). -/
def attemptOk (r : HttpResponse) : Bool :=
  match downloadFile r with
  | AttemptOutcome.failedNoWrite => false
  | AttemptOutcome.wrote n => decide (MIN_IMAGE_SIZE ≤ n)

/-- Result of processing one queue item: resulting cache state, the string
stored into `results[index]`, how many `downloadFile` calls were made, and
the inter-attempt sleeps (ms) that were performed. -/
structure ItemOutcome where
  fs : Fs
  result : String
  fetches : Nat
  waits : List Nat

/-- The retry loop of `worker` (lines 84-112), over the remaining attempt
numbers (called with `[1, 2, 3]`).  On success the file stays and the loop
breaks; on failure the partial/invalid file is deleted and, when more
attempts remain (`attempt < 3`), the worker sleeps `1500 * attempt` ms. -/
def runAttempts (env : DownloadEnv) (url path : String) :
    List Nat → Fs → ItemOutcome
  | [], fs => ⟨fs, "", 0, []⟩
  | attempt :: rest, fs =>
    match downloadFile (env.fetchAttempt url attempt) with
    | AttemptOutcome.wrote n =>
      let fs1 := fsWrite fs path n
      if MIN_IMAGE_SIZE ≤ n then
        ⟨fs1, path, 1, []⟩
      else
        let tail := runAttempts env url path rest (fsErase fs1 path)
        ⟨tail.fs, tail.result, tail.fetches + 1,
          (if attempt < 3 then [1500 * attempt] else []) ++ tail.waits⟩
    | AttemptOutcome.failedNoWrite =>
        let tail := runAttempts env url path rest (fsErase fs path)
        ⟨tail.fs, tail.result, tail.fetches + 1,
          (if attempt < 3 then [1500 * attempt] else []) ++ tail.waits⟩

/-- One full iteration of `worker` for a single queue item (lines 51-118):
invalid URLs get `''` immediately; a cached file of sufficient size is
accepted; a cached file that is too small is deleted and the URL is
re-downloaded; otherwise the retry loop runs. -/
def processItem (env : DownloadEnv) (fs : Fs) (url : String) : ItemOutcome :=
  if !(validUrl url) then ⟨fs, "", 0, []⟩
  else
    let path := localPath env url
    match fs path with
    | some size =>
      if MIN_IMAGE_SIZE ≤ size then ⟨fs, path, 0, []⟩
      else runAttempts env url path [1, 2, 3] (fsErase fs path)
    | none => runAttempts env url path [1, 2, 3] fs

/-- The shared work queue, consumed item by item.  The source runs two
workers over one shared queue, but each item is popped exactly once, is
processed entirely by one worker, and writes only its own `results[index]`
slot, so the per-index results are those of sequential consumption. -/
def processQueue (env : DownloadEnv) : Fs → List String → Fs × List String
  | fs, [] => (fs, [])
  | fs, url :: rest =>
    let out := processItem env fs url
    let tail := processQueue env out.fs rest
    (tail.1, out.result :: tail.2)

/-- `DownloaderService.downloadCharts` (lines 14-43): resolve every URL of
the input list against the cache/network, returning the positional results
array. -/
def downloadCharts (env : DownloadEnv) (fs : Fs) (urls : List String) :
    List String :=
  (processQueue env fs urls).2

/-- Cache-hit test of the worker (lines 68-75): a file exists at `path` and
its size passes the minimum-size check. -/
def cacheHit (fs : Fs) (path : String) : Bool :=
  match fs path with
  | some n => decide (MIN_IMAGE_SIZE ≤ n)
  | none => false

/-- Whether some attempt of the three-attempt budget would succeed. -/
def anyAttemptOk (env : DownloadEnv) (url : String) : Bool :=
  attemptOk (env.fetchAttempt url 1) || attemptOk (env.fetchAttempt url 2) ||
    attemptOk (env.fetchAttempt url 3)

/-- The attempt number of the first successful attempt, if any. -/
def firstSuccessAttempt (env : DownloadEnv) (url : String) : Option Nat :=
  if attemptOk (env.fetchAttempt url 1) then some 1
  else if attemptOk (env.fetchAttempt url 2) then some 2
  else if attemptOk (env.fetchAttempt url 3) then some 3
  else none

/-- An item resolves to a local path exactly when its URL is valid and
either the cache already holds a valid file or some attempt succeeds. -/
def itemResolves (env : DownloadEnv) (fs : Fs) (url : String) : Bool :=
  validUrl url && (cacheHit fs (localPath env url) || anyAttemptOk env url)

/-- Cache state seen by item `i` of a batch: the state after the items
before it have been processed. -/
def fsBefore (env : DownloadEnv) (fs : Fs) (urls : List String) (i : Nat) : Fs :=
  (processQueue env fs (urls.take i)).1

/-! ### PrometeoService: mutex queue (lines 173-193) -/

/-- The two private fields implementing the mutex: `mutexLocked` and the
FIFO `mutexQueue` of pending waiters (represented by numeric ids standing
for the queued `resolve` callbacks). -/
structure MutexState where
  mutexLocked : Bool
  mutexQueue : List Nat
deriving DecidableEq

/-- `acquireLock` (lines 176-184): take the lock when free, otherwise append
the caller to the wait queue.  The returned flag tells whether the lock was
granted immediately. -/
def acquireLock (w : Nat) (s : MutexState) : MutexState × Bool :=
  if s.mutexLocked = false then ({ s with mutexLocked := true }, true)
  else ({ s with mutexQueue := s.mutexQueue ++ [w] }, false)

/-- `releaseLock` (lines 186-193): hand the lock to the first queued waiter
(`shift`), or mark it free when nobody waits. -/
def releaseLock (s : MutexState) : MutexState × Option Nat :=
  match s.mutexQueue with
  | next :: rest => ({ s with mutexQueue := rest }, some next)
  | [] => ({ s with mutexLocked := false }, none)

/-- The waiters granted the lock by `k` successive `releaseLock` calls, in
grant order. -/
def grantSeq : MutexState → Nat → List Nat
  | _, 0 => []
  | s, k + 1 =>
    match releaseLock s with
    | (s1, some w) => w :: grantSeq s1 k
    | (_, none) => []

/-- Events of a session operation, as seen by the lock discipline. -/
inductive LockEvent where
  | acquire
  | work (tag : String)
  | release
deriving DecidableEq

/-- The body of one public operation: the session interactions it performs
while holding the lock (opaque tags) and its outcome — the private
`_fetch...` bodies either return a value or throw. -/
structure OpBody (α : Type) where
  events : List String
  outcome : Except String α

/-- The `await this.acquireLock(); try ... finally this.releaseLock()`
wrapper shared by all four public operations (lines 342-349, 474-481,
487-499, 506-517): acquire, run the body, and release on every exit path,
error or not.  Sequential semantics for one operation at a time: the mutex
state evolves by the acquire and then the release. -/
def withLock {α : Type} (body : OpBody α) (s : MutexState) (w : Nat) :
    MutexState × List LockEvent × Except String α :=
  let s1 := (acquireLock w s).1
  (((releaseLock s1).1),
   LockEvent.acquire :: body.events.map LockEvent.work ++ [LockEvent.release],
   body.outcome)

/-- Sequencing of two operation bodies inside one lock hold: if the first
throws, the second never runs and the error propagates. -/
def seqBody {α β : Type} (b1 : OpBody α) (b2 : OpBody β) : OpBody (α × β) :=
  match b1.outcome with
  | Except.error e => ⟨b1.events, Except.error e⟩
  | Except.ok a =>
    match b2.outcome with
    | Except.error e => ⟨b1.events ++ b2.events, Except.error e⟩
    | Except.ok b => ⟨b1.events ++ b2.events, Except.ok (a, b)⟩

/-- `PrometeoService.fetchProductCatalog` as a locked operation. -/
def fetchProductCatalog {α : Type} (catalogBody : OpBody α)
    (s : MutexState) (w : Nat) : MutexState × List LockEvent × Except String α :=
  withLock catalogBody s w

/-- `PrometeoService.fetchChartUrls` as a locked operation. -/
def fetchChartUrls {α : Type} (chartBody : OpBody α)
    (s : MutexState) (w : Nat) : MutexState × List LockEvent × Except String α :=
  withLock chartBody s w

/-- `PrometeoService.fetchCatalogAndChartUrls` (lines 487-499): one lock
hold around the catalog sub-step followed by the chart-URL sub-step. -/
def fetchCatalogAndChartUrls {α β : Type} (catalogBody : OpBody α)
    (chartBody : OpBody β) (s : MutexState) (w : Nat) :
    MutexState × List LockEvent × Except String (α × β) :=
  withLock (seqBody catalogBody chartBody) s w

/-- `PrometeoService.fetchChartUrlsForPpt` (lines 506-517): one lock hold
around `_ensureProductType` followed by `_fetchChartUrls`. -/
def fetchChartUrlsForPpt {α β : Type} (ensureBody : OpBody α)
    (chartBody : OpBody β) (s : MutexState) (w : Nat) :
    MutexState × List LockEvent × Except String (α × β) :=
  withLock (seqBody ensureBody chartBody) s w

/-- The lock discipline asserted of every public operation: the event trace
is one acquire, then session work only, then one release; and afterwards
the mutex is free again. -/
def lockDiscipline {γ : Type}
    (r : MutexState × List LockEvent × Except String γ) : Prop :=
  (∃ mid, r.2.1 = LockEvent.acquire :: mid ++ [LockEvent.release] ∧
      ∀ e ∈ mid, ∃ tag, e = LockEvent.work tag) ∧
  r.1 = ⟨false, []⟩

/-! ### PrometeoService: stability-detection poll (lines 255-340) -/

/-- One iteration of the `_waitForStableArray` polling loop, at elapsed time
`t` ms since the wait started.  `arr e` is the value the page's
`arrLinkImmagini.length` read returns at elapsed time `e`. -/
inductive PollStep where
  | ret (c : Nat) (t : Nat)
  | cont (t lastCount stableChecks : Nat)
deriving DecidableEq

/-- `requiredStableChecks` (line 274). -/
def requiredStableChecks : Nat := 6

/-- The loop body (lines 281-329): read the length; a positive repeated
length bumps the stability counter; once the counter and the
`minTotalWait` floor are both satisfied, wait 1.5 s and re-read; return on
a confirmed count, otherwise reset the counter to the freshly read count
and keep polling on the 500 ms cadence. -/
def waitStep (arr : Nat → Nat) (minTotalWait t lastCount stableChecks : Nat) :
    PollStep :=
  if 0 < arr t then
    if arr t = lastCount then
      if requiredStableChecks ≤ stableChecks + 1 ∧ minTotalWait ≤ t then
        if arr (t + 1500) = arr t then PollStep.ret (arr t) (t + 1500)
        else PollStep.cont (t + 1500 + 500) (arr (t + 1500)) 0
      else PollStep.cont (t + 500) lastCount (stableChecks + 1)
    else PollStep.cont (t + 500) (arr t) 0
  else PollStep.cont (t + 500) lastCount stableChecks

/-- The full polling loop with its `maxWait` guard, fuel-bounded (each
iteration consumes at least 500 ms, so fuel `maxWait / 500 + 2` never runs
out before the guard stops the loop).  Returns the accepted count and the
elapsed time at which the wait ended; on timeout the final read is
returned when positive, else 0 (lines 331-339). -/
def waitLoop (arr : Nat → Nat) (maxWait minTotalWait : Nat) :
    Nat → Nat → Nat → Nat → Nat × Nat
  | 0, t, _, _ => (if 0 < arr t then arr t else 0, t)
  | fuel + 1, t, lastCount, stableChecks =>
    if t < maxWait then
      match waitStep arr minTotalWait t lastCount stableChecks with
      | PollStep.ret c tr => (c, tr)
      | PollStep.cont t1 lc sc => waitLoop arr maxWait minTotalWait fuel t1 lc sc
    else (if 0 < arr t then arr t else 0, t)

/-- `maxWait` selection (line 272), as a function of the already
incremented `fetchCount`. -/
def waitMaxWait (fcAfter : Nat) : Nat :=
  if fcAfter ≤ 2 then 30000 else 20000

/-- `minTotalWait` selection (line 273). -/
def waitMinTotalWait (fcAfter : Nat) : Nat :=
  if fcAfter ≤ 2 then 4000 else 2000

/-- Result of one `_waitForStableArray` call: the count, the elapsed time
the call consumed, and the `fetchCount` field after the call. -/
structure WaitResult where
  count : Nat
  tEnd : Nat
  fc : Nat
deriving DecidableEq

/-- `PrometeoService._waitForStableArray` (lines 266-340): bump
`fetchCount`, pick the cold/warm bounds, and run the polling loop from
elapsed time 0. -/
def waitForStableArray (arr : Nat → Nat) (fetchCount : Nat) : WaitResult :=
  let fc := fetchCount + 1
  let maxWait := waitMaxWait fc
  let minTotalWait := waitMinTotalWait fc
  let r := waitLoop arr maxWait minTotalWait (maxWait / 500 + 2) 0 0 0
  ⟨r.1, r.2, fc⟩

/-! ### PrometeoService: chart URL fetch (lines 575-750) -/

/-- One forecast time step (shared/types). -/
structure TimeStep where
  label : String
  index : Nat
  imageUrl : String
deriving DecidableEq

/-- `ChartUrlsResult` (lines 161-165). -/
structure ChartUrlsResult where
  productName : String
  date : String
  steps : List TimeStep
deriving DecidableEq

/-- Session-level environment of a chart fetch: login state, whether the
window is already on the search page, and how long the navigation wait
takes (the source caps the load wait at 15 s, then settles 3 s). -/
structure SessionEnv where
  isLoggedIn : Bool
  onSearchPage : Bool
  navWait : Nat

/-- Time consumed by `ensureSearchPage` (lines 204-234). -/
def ensureSearchPageTime (env : SessionEnv) : Nat :=
  if env.onSearchPage then 0 else min env.navWait 15000 + 3000

/-- Oracles for the remote page during `_fetchChartUrls`: the step-array
length and the select value as read at absolute time `t`, the count of
validity-label cells, and the payload of the final DOM extraction script. -/
structure ChartPage where
  arr : Nat → Nat
  selVal : Nat → String
  labelCount : Nat → Nat
  extractResult : ChartUrlsResult

/-- End time of the product-selection phase (lines 580-614): set the value,
wait 500 ms, verify; on a mismatch wait 2 s, set again and wait another
500 ms. -/
def selPhaseEnd (page : ChartPage) (productId : String) (t1 : Nat) : Nat :=
  if page.selVal (t1 + 500) = productId then t1 + 500 else t1 + 3000

/-- The first `_waitForStableArray` call of `_fetchChartUrls` (line 619),
with the page clock shifted to the wait's start. -/
def chartsWait1 (page : ChartPage) (productId : String) (fc t1 : Nat) :
    WaitResult :=
  waitForStableArray (fun e => page.arr (selPhaseEnd page productId t1 + e)) fc

/-- The fallback `_waitForStableArray` call (line 631), made after the
`cercaImmagini` trigger and its 1 s pause when the first wait saw zero
entries. -/
def chartsWait2 (page : ChartPage) (productId : String) (fc t1 : Nat) :
    WaitResult :=
  let w1 := chartsWait1 page productId fc t1
  waitForStableArray
    (fun e => page.arr (selPhaseEnd page productId t1 + w1.tEnd + 1000 + e))
    w1.fc

/-- The validity-label wait (lines 641-658): poll every 500 ms for up to
8 s until the label count reaches the expected count, accepting a partial
count after 4 s.  Returns the absolute time at which the loop exits. -/
def labelWaitLoop (page : ChartPage) (expected : Nat) :
    Nat → Nat → Nat → Nat
  | 0, _, t => t
  | fuel + 1, start, t =>
    if t - start < 8000 then
      let lc := page.labelCount t
      if expected ≤ lc then t
      else if 0 < lc ∧ 4000 < t - start then t
      else labelWaitLoop page expected fuel start (t + 500)
    else t

/-- `PrometeoService._fetchChartUrls` (lines 575-750): authentication
check, product selection, the stability wait, the zero-entry fallback, the
empty-result return, and, on a positive count, the label wait and the DOM
extraction.  Returns the result, the new `fetchCount` and the end time. -/
def fetchChartUrlsCore (env : SessionEnv) (page : ChartPage)
    (productId : String) (fc t0 : Nat) :
    Except String ChartUrlsResult × Nat × Nat :=
  if env.isLoggedIn = false then (Except.error "Non connesso a Prometeo", fc, t0)
  else
    let t1 := t0 + ensureSearchPageTime env
    let tSel := selPhaseEnd page productId t1
    let w1 := chartsWait1 page productId fc t1
    if w1.count = 0 then
      let w2 := chartsWait2 page productId fc t1
      let t2 := tSel + w1.tEnd + 1000 + w2.tEnd
      if w2.count = 0 then
        (Except.ok { productName := "", date := "", steps := [] }, w2.fc, t2)
      else
        let expected := if w2.count = 0 then 1 else w2.count
        (Except.ok page.extractResult, w2.fc,
          labelWaitLoop page expected 18 t2 t2)
    else
      let expected := if w1.count = 0 then 1 else w1.count
      (Except.ok page.extractResult, w1.fc,
        labelWaitLoop page expected 18 (tSel + w1.tEnd) (tSel + w1.tEnd))

/-! ### PrometeoService: product-type selection (lines 524-573) -/

/-- The `#slArea` lookup table shared by `_fetchProductCatalog` and
`_ensureProductType` (lines 527-540), with the `|| '1'` default. -/
def typeValueMap (productType : String) : String :=
  if productType = "CHARTS" then "1"
  else if productType = "SATELLITE" then "2"
  else if productType = "FLIGHT CHARTS" then "3"
  else if productType = "MESSAGES" then "4"
  else if productType = "RADAR" then "6"
  else if productType = "METGRAMS" then "8"
  else if productType = "SOUNDINGS" then "9"
  else if productType = "LIGHTNING" then "10"
  else if productType = "SEASONAL" then "11"
  else if productType = "SPACE WEATHER" then "12"
  else if productType = "SUBSEASONAL" then "15"
  else "1"

/-- Result of one `_ensureProductType` call: the `#slArea` value afterwards
and how many list-reload script actions (`val(...).trigger('change')`)
were performed. -/
structure EnsureResult where
  slArea : String
  reloads : Nat
deriving DecidableEq

/-- `PrometeoService._ensureProductType` (lines 524-573): read the current
`#slArea` value; if it already equals the mapped value, do nothing;
otherwise set it, trigger the change reload, and wait for the list. -/
def ensureProductType (productType slArea : String) : EnsureResult :=
  let typeValue := typeValueMap productType
  let currentValue := slArea
  if currentValue = typeValue then ⟨slArea, 0⟩
  else ⟨typeValue, 1⟩

/-! ### PrometeoService.fetchImage (lines 757-786) -/

/-- Environment of a `fetchImage` call: the response of the session
transport per URL, and the base64 encoder (`Buffer.toString('base64')`, an
external library primitive). -/
structure FetchEnv where
  resp : String → HttpResponse
  b64 : List Nat → String

/-- `url.replace(/^\//, '')`: strip one leading slash. -/
def dropLeadingSlash (s : String) : String :=
  match s.data with
  | '/' :: rest => String.mk rest
  | _ => s

/-- URL absolutisation of `fetchImage` (lines 761-764). -/
def resolveImageUrl (imageUrl : String) : String :=
  if strStarts imageUrl "http" then imageUrl
  else PROMETEO_BASE_URL ++ "/" ++ dropLeadingSlash imageUrl

/-- `PrometeoService.fetchImage` (lines 757-786): absolutise the URL, fetch
it through the session, throw when the status is not ok, and otherwise
return a base64 data URL of the body, defaulting an absent content type to
`image/png`.  No content-type exclusion, no size check, no cache write. -/
def fetchImage (env : FetchEnv) (imageUrl : String) : Except String String :=
  let url := resolveImageUrl imageUrl
  let r := env.resp url
  if !r.ok then
    Except.error ("Failed to fetch image: " ++ toString r.status)
  else
    let contentType := if r.contentType = "" then "image/png" else r.contentType
    Except.ok ("data:" ++ contentType ++ ";base64," ++ env.b64 r.body)

/-! ### Concrete environments used to evaluate the definitions -/

/-- A transport where `http://a.png` yields an HTML page on the first
attempt and a real image on later attempts, and every other URL fails. -/
def envW : DownloadEnv where
  cacheDir := "cache"
  sha256hex16 := fun u => if u = "http://a.png" then "aaaa" else "bbbb"
  fetchAttempt := fun u k =>
    if u = "http://a.png" then
      (if k = 1 then ⟨true, 200, "text/html; charset=utf-8", List.replicate 1100 1⟩
       else ⟨true, 200, "image/png", List.replicate 1100 1⟩)
    else ⟨false, 500, "", []⟩

/-- A transport that always answers 200 with an HTML body. -/
def envH : DownloadEnv where
  cacheDir := "cache"
  sha256hex16 := fun _ => "hh"
  fetchAttempt := fun _ _ => ⟨true, 200, "text/html; charset=utf-8", List.replicate 1100 1⟩

/-- The empty cache. -/
def fsEmpty : Fs := fun _ => none

/-- A cache holding a 1023-byte file at the path of `http://a.png`. -/
def fs1023 : Fs :=
  fun p => if p = localPath envW "http://a.png" then some 1023 else none

/-- A cache holding a 1024-byte file at the path of `http://a.png`. -/
def fs1024 : Fs :=
  fun p => if p = localPath envW "http://a.png" then some 1024 else none

/-- A mixed URL batch: a failing URL, a succeeding URL, an invalid one. -/
def urlsW : List String := ["http://b", "http://a.png", ""]

/-- A session already logged in and on the search page. -/
def envSW : SessionEnv := ⟨true, true, 0⟩

/-- A page whose step array stays empty. -/
def pageZW : ChartPage := ⟨fun _ => 0, fun _ => "42", fun _ => 0, ⟨"", "", []⟩⟩

/-- A page whose step array grows to 3 and then holds at 8. -/
def pageGW : ChartPage :=
  ⟨fun t => if t < 2000 then 3 else 8, fun _ => "42", fun _ => 8,
    ⟨"P", "2026-02-09", []⟩⟩

/-- A length trace that holds at 5 forever. -/
def arrConstW : Nat → Nat := fun _ => 5

/-- A length trace that reads 5 up to 4000 ms elapsed and 7 afterwards, so
it grows exactly across a confirmation re-read started at 4000 ms. -/
def arrGrowW : Nat → Nat := fun t => if t ≤ 4000 then 5 else 7

/-- An operation body that succeeds after one session interaction. -/
def bodyOkW : OpBody Nat := ⟨["catalog"], Except.ok 1⟩

/-- An operation body that throws after one session interaction. -/
def bodyErrW : OpBody Nat := ⟨["chart"], Except.error "boom"⟩

/-- A transport answering 200 text/html to every URL. -/
def fenvW : FetchEnv :=
  ⟨fun _ => ⟨true, 200, "text/html", [1, 2, 3]⟩, fun _ => "AQID"⟩

/-- A transport answering 404 to every URL. -/
def fenvErrW : FetchEnv := ⟨fun _ => ⟨false, 404, "", []⟩, fun _ => ""⟩

/-! ## Lemmas about the downloader -/

lemma fsErase_self (fs : Fs) (p : String) : fsErase fs p p = none := by
  simp [fsErase]

lemma fsWrite_erase (fs : Fs) (p : String) (n : Nat) :
    fsErase (fsWrite fs p n) p = fsErase fs p := by
  funext q
  unfold fsErase fsWrite
  by_cases h : q = p <;> simp [h]

lemma downloadFile_wrote (r : HttpResponse) (n : Nat)
    (h : downloadFile r = AttemptOutcome.wrote n) : n = r.body.length := by
  unfold downloadFile at h
  split at h
  · exact absurd h (by simp)
  · split at h
    · exact absurd h (by simp)
    · injection h with h1
      exact h1.symm

lemma attemptOk_failed (r : HttpResponse)
    (h : downloadFile r = AttemptOutcome.failedNoWrite) :
    attemptOk r = false := by
  simp [attemptOk, h]

lemma attemptOk_wrote (r : HttpResponse) (n : Nat)
    (h : downloadFile r = AttemptOutcome.wrote n) :
    attemptOk r = decide (MIN_IMAGE_SIZE ≤ n) := by
  simp [attemptOk, h]

lemma runAttempts_nil (env : DownloadEnv) (url path : String) (fs : Fs) :
    runAttempts env url path [] fs = ⟨fs, "", 0, []⟩ := rfl

lemma runAttempts_cons (env : DownloadEnv) (url path : String) (a : Nat)
    (rest : List Nat) (fs : Fs) :
    runAttempts env url path (a :: rest) fs =
      (if attemptOk (env.fetchAttempt url a) then
        ⟨fsWrite fs path (env.fetchAttempt url a).body.length, path, 1, []⟩
      else
        let tail := runAttempts env url path rest (fsErase fs path)
        ⟨tail.fs, tail.result, tail.fetches + 1,
          (if a < 3 then [1500 * a] else []) ++ tail.waits⟩) := by
  cases hdf : downloadFile (env.fetchAttempt url a) with
  | failedNoWrite =>
    rw [attemptOk_failed _ hdf]
    simp only [runAttempts, hdf, Bool.false_eq_true, if_false]
  | wrote n =>
    have hn := downloadFile_wrote _ _ hdf
    subst hn
    rw [attemptOk_wrote _ _ hdf]
    by_cases hmin : MIN_IMAGE_SIZE ≤ (env.fetchAttempt url a).body.length
    · simp [runAttempts, hdf, hmin]
    · simp [runAttempts, hdf, hmin, fsWrite_erase]

lemma runAttempts_result (env : DownloadEnv) (url path : String)
    (l : List Nat) : ∀ fs : Fs,
    (runAttempts env url path l fs).result =
      (if l.any (fun a => attemptOk (env.fetchAttempt url a)) then path
       else "") := by
  induction l with
  | nil => intro fs; simp [runAttempts]
  | cons a rest ih =>
    intro fs
    rw [runAttempts_cons]
    by_cases h : attemptOk (env.fetchAttempt url a) <;> simp [h, ih]

lemma runAttempts_fs_off (env : DownloadEnv) (url path : String)
    (l : List Nat) : ∀ (fs : Fs) (q : String), q ≠ path →
    (runAttempts env url path l fs).fs q = fs q := by
  induction l with
  | nil => intro fs q _; rfl
  | cons a rest ih =>
    intro fs q hq
    rw [runAttempts_cons]
    by_cases h : attemptOk (env.fetchAttempt url a)
    · simp [h, fsWrite, hq]
    · simp only [h, Bool.false_eq_true, if_false]
      rw [ih (fsErase fs path) q hq]
      simp [fsErase, hq]

lemma runAttempts_fs_allfail (env : DownloadEnv) (url path : String)
    (l : List Nat) : ∀ fs : Fs,
    (∀ a ∈ l, attemptOk (env.fetchAttempt url a) = false) →
    (runAttempts env url path l fs).fs path =
      (if l.isEmpty then fs path else none) := by
  induction l with
  | nil => intro fs _; simp [runAttempts]
  | cons a rest ih =>
    intro fs hall
    rw [runAttempts_cons]
    simp only [hall a (by simp), Bool.false_eq_true, if_false, List.isEmpty_cons]
    rw [ih (fsErase fs path) (fun x hx => hall x (by simp [hx]))]
    by_cases hr : rest.isEmpty <;> simp [hr, fsErase_self]

lemma runAttempts_fetches_pos (env : DownloadEnv) (url path : String)
    (a : Nat) (rest : List Nat) (fs : Fs) :
    1 ≤ (runAttempts env url path (a :: rest) fs).fetches := by
  rw [runAttempts_cons]
  by_cases h : attemptOk (env.fetchAttempt url a) <;> simp [h]

lemma cacheHit_some (fs : Fs) (p : String) (n : Nat) (h : fs p = some n) :
    cacheHit fs p = decide (MIN_IMAGE_SIZE ≤ n) := by
  simp [cacheHit, h]

lemma processItem_eq_run (env : DownloadEnv) (fs : Fs) (url : String)
    (hv : validUrl url = true)
    (hch : cacheHit fs (localPath env url) = false) :
    processItem env fs url =
      runAttempts env url (localPath env url) [1, 2, 3]
        (fsErase fs (localPath env url)) := by
  unfold processItem
  cases hfs : fs (localPath env url) with
  | none =>
    have hfse : fsErase fs (localPath env url) = fs := by
      funext q
      unfold fsErase
      split
      · rw [‹q = localPath env url›, hfs]
      · rfl
    simp [hv, hfs, hfse]
  | some n =>
    have hn : ¬ MIN_IMAGE_SIZE ≤ n := by
      rw [cacheHit_some fs _ n hfs] at hch
      simpa using hch
    simp [hv, hfs, hn]

lemma processItem_result (env : DownloadEnv) (fs : Fs) (url : String) :
    (processItem env fs url).result =
      (if itemResolves env fs url then localPath env url else "") := by
  cases hv : validUrl url with
  | false => simp [processItem, itemResolves, hv]
  | true =>
    cases hch : cacheHit fs (localPath env url) with
    | true =>
      unfold cacheHit at hch
      cases hfs : fs (localPath env url) with
      | none => rw [hfs] at hch; simp at hch
      | some n =>
        rw [hfs] at hch
        have hn : MIN_IMAGE_SIZE ≤ n := by simpa using hch
        have hchb : cacheHit fs (localPath env url) = true := by
          simp [cacheHit, hfs, hn]
        simp [processItem, hv, hfs, hn, itemResolves, hchb]
    | false =>
      rw [processItem_eq_run env fs url hv hch, runAttempts_result]
      simp only [itemResolves, hv, hch, Bool.false_or, Bool.true_and]
      have : ([1, 2, 3].any fun a => attemptOk (env.fetchAttempt url a)) =
          anyAttemptOk env url := by
        simp [anyAttemptOk, List.any, Bool.or_assoc]
      rw [this]

lemma processQueue_length (env : DownloadEnv) (urls : List String) :
    ∀ fs : Fs, (processQueue env fs urls).2.length = urls.length := by
  induction urls with
  | nil => intro fs; rfl
  | cons u rest ih => intro fs; simp [processQueue, ih]

lemma processQueue_getD (env : DownloadEnv) (urls : List String) :
    ∀ (fs : Fs) (i : Nat), i < urls.length →
    (processQueue env fs urls).2.getD i "" =
      (if itemResolves env ((processQueue env fs (urls.take i)).1)
          (urls.getD i "")
       then localPath env (urls.getD i "") else "") := by
  induction urls with
  | nil => intro fs i h; simp at h
  | cons u rest ih =>
    intro fs i h
    cases i with
    | zero =>
      simp only [List.take_zero, processQueue, List.getD_cons_zero]
      exact processItem_result env fs u
    | succ j =>
      simp only [List.take_succ_cons, processQueue, List.getD_cons_succ]
      exact ih (processItem env fs u).fs j (by simpa using h)

/-! ## Claim theorems: the concurrent downloader -/

/-- Claim C1: `downloadCharts` returns a list of the same length as its
input, and the entry at position `i` is the resolution of input URL `i`:
the computed local cache path when the item was cached or some download
attempt succeeded, and `""` when the URL was invalid or all attempts
failed. -/
theorem C1_downloadCharts_positional (env : DownloadEnv) (fs : Fs)
    (urls : List String) :
    (downloadCharts env fs urls).length = urls.length ∧
    ∀ i : Nat, i < urls.length →
      (downloadCharts env fs urls).getD i "" =
        (if itemResolves env (fsBefore env fs urls i) (urls.getD i "")
         then localPath env (urls.getD i "") else "") :=
  ⟨processQueue_length env urls fs,
   fun i h => processQueue_getD env urls fs i h⟩

theorem C1_downloadCharts_positional_witness :
    1 < urlsW.length ∧
    (downloadCharts envW fsEmpty urlsW).getD 1 "" =
      (if itemResolves envW (fsBefore envW fsEmpty urlsW 1) (urlsW.getD 1 "")
       then localPath envW (urlsW.getD 1 "") else "") :=
  ⟨by decide,
   (C1_downloadCharts_positional envW fsEmpty urlsW).2 1 (by decide)⟩

/-- Claim C4: with a pre-existing cache file of size at least 1024 bytes at
the item's computed path, the worker accepts the cached file — the result
is the local path and no network fetch happens; with a pre-existing file
smaller than 1024 bytes (such as 1023 bytes) the file is deleted — the
whole processing is the same as with no cached file — and the URL is
re-downloaded (at least one fetch). -/
theorem C4_cache_size_boundary (env : DownloadEnv) (fs : Fs) (url : String)
    (n : Nat) (hv : validUrl url = true)
    (hfs : fs (localPath env url) = some n) :
    (MIN_IMAGE_SIZE ≤ n →
      processItem env fs url = ⟨fs, localPath env url, 0, []⟩) ∧
    (n < MIN_IMAGE_SIZE →
      processItem env fs url =
        processItem env (fsErase fs (localPath env url)) url ∧
      1 ≤ (processItem env fs url).fetches) := by
  constructor
  · intro hn
    simp [processItem, hv, hfs, hn]
  · intro hn
    have hn2 : ¬ MIN_IMAGE_SIZE ≤ n := by omega
    have hch : cacheHit fs (localPath env url) = false := by
      simp [cacheHit, hfs, hn2]
    have hrun := processItem_eq_run env fs url hv hch
    have hch2 : cacheHit (fsErase fs (localPath env url))
        (localPath env url) = false := by
      simp [cacheHit, fsErase_self]
    have hrun2 := processItem_eq_run env (fsErase fs (localPath env url)) url
      hv hch2
    have hee : fsErase (fsErase fs (localPath env url)) (localPath env url) =
        fsErase fs (localPath env url) := by
      funext q
      unfold fsErase
      split <;> rfl
    rw [hee] at hrun2
    refine ⟨hrun.trans hrun2.symm, ?_⟩
    rw [hrun]
    exact runAttempts_fetches_pos env url (localPath env url) 1 [2, 3] _

theorem C4_cache_size_boundary_witness :
    (processItem envW fs1024 "http://a.png" =
      ⟨fs1024, localPath envW "http://a.png", 0, []⟩) ∧
    (processItem envW fs1023 "http://a.png" =
       processItem envW (fsErase fs1023 (localPath envW "http://a.png"))
         "http://a.png" ∧
     1 ≤ (processItem envW fs1023 "http://a.png").fetches) :=
  ⟨(C4_cache_size_boundary envW fs1024 "http://a.png" 1024 (by decide)
      (by decide)).1 (by decide),
   (C4_cache_size_boundary envW fs1023 "http://a.png" 1023 (by decide)
      (by decide)).2 (by decide)⟩

/-- Claim C5: a response with an ok status whose content type contains
`text/html` is a failed attempt — `downloadFile` throws before writing any
byte, so the attempt never succeeds; and when every attempt of an item
answers 200 with HTML, the item resolves to `""` and no file is left at
the item's cache path. -/
theorem C5_html_never_cached (env : DownloadEnv) (fs : Fs) (url : String)
    (hv : validUrl url = true)
    (hch : cacheHit fs (localPath env url) = false)
    (h1 : (env.fetchAttempt url 1).ok = true ∧
      strIncludes (env.fetchAttempt url 1).contentType "text/html" = true)
    (h2 : (env.fetchAttempt url 2).ok = true ∧
      strIncludes (env.fetchAttempt url 2).contentType "text/html" = true)
    (h3 : (env.fetchAttempt url 3).ok = true ∧
      strIncludes (env.fetchAttempt url 3).contentType "text/html" = true) :
    (∀ r : HttpResponse, r.ok = true →
        strIncludes r.contentType "text/html" = true →
        downloadFile r = AttemptOutcome.failedNoWrite ∧ attemptOk r = false) ∧
    (processItem env fs url).result = "" ∧
    (processItem env fs url).fs (localPath env url) = none := by
  have hgen : ∀ r : HttpResponse, r.ok = true →
      strIncludes r.contentType "text/html" = true →
      downloadFile r = AttemptOutcome.failedNoWrite ∧ attemptOk r = false := by
    intro r hok hhtml
    have hdf : downloadFile r = AttemptOutcome.failedNoWrite := by
      simp [downloadFile, hok, hhtml]
    exact ⟨hdf, attemptOk_failed r hdf⟩
  have hall : ∀ a ∈ [1, 2, 3], attemptOk (env.fetchAttempt url a) = false := by
    intro a ha
    have : a = 1 ∨ a = 2 ∨ a = 3 := by simpa using ha
    rcases this with h | h | h
    · rw [h]; exact (hgen _ h1.1 h1.2).2
    · rw [h]; exact (hgen _ h2.1 h2.2).2
    · rw [h]; exact (hgen _ h3.1 h3.2).2
  have hrun := processItem_eq_run env fs url hv hch
  refine ⟨hgen, ?_, ?_⟩
  · rw [hrun, runAttempts_result]
    have : ([1, 2, 3].any fun a => attemptOk (env.fetchAttempt url a)) =
        false := by
      simp [List.any, hall 1 (by simp), hall 2 (by simp), hall 3 (by simp)]
    simp [this]
  · rw [hrun, runAttempts_fs_allfail env url _ [1, 2, 3] _ hall]
    simp

theorem C5_html_never_cached_witness :
    (processItem envH fsEmpty "http://x").result = "" ∧
    (processItem envH fsEmpty "http://x").fs
      (localPath envH "http://x") = none :=
  (C5_html_never_cached envH fsEmpty "http://x" (by decide) (by decide)
    ⟨by decide, by decide⟩ ⟨by decide, by decide⟩ ⟨by decide, by decide⟩).2

/-- Claim C6: each item uses at most 3 download attempts; after a failed
attempt `k < 3` the worker sleeps `1500 * k` ms (so `[1500, 3000]` is the
full failure wait pattern and its prefix appears when a later attempt
succeeds); when all 3 attempts fail, the item's result is `""`; the item
touches no cache path other than its own, and the batch always produces
one result per input whatever the failures. -/
theorem C6_retry_budget (env : DownloadEnv) (fs : Fs) (url : String)
    (hv : validUrl url = true)
    (hch : cacheHit fs (localPath env url) = false) :
    (processItem env fs url).fetches ≤ 3 ∧
    (∀ k : Nat, firstSuccessAttempt env url = some k →
      (processItem env fs url).fetches = k ∧
      (processItem env fs url).waits = List.take (k - 1) [1500, 3000]) ∧
    (firstSuccessAttempt env url = none →
      (processItem env fs url).fetches = 3 ∧
      (processItem env fs url).waits = [1500, 3000] ∧
      (processItem env fs url).result = "") ∧
    (∀ q : String, q ≠ localPath env url →
      (processItem env fs url).fs q = fs q) ∧
    (∀ (fs2 : Fs) (urls : List String),
      (downloadCharts env fs2 urls).length = urls.length) := by
  have hrun := processItem_eq_run env fs url hv hch
  have hoff : ∀ q : String, q ≠ localPath env url →
      (processItem env fs url).fs q = fs q := by
    intro q hq
    rw [hrun, runAttempts_fs_off env url _ [1, 2, 3] _ q hq]
    simp [fsErase, hq]
  refine ⟨?_, ?_, ?_, hoff, fun fs2 urls => processQueue_length env urls fs2⟩
  · rw [hrun]
    cases hb1 : attemptOk (env.fetchAttempt url 1) <;>
      cases hb2 : attemptOk (env.fetchAttempt url 2) <;>
        cases hb3 : attemptOk (env.fetchAttempt url 3) <;>
          simp [runAttempts_cons, runAttempts_nil, hb1, hb2, hb3]
  · intro k hk
    rw [hrun]
    cases hb1 : attemptOk (env.fetchAttempt url 1) <;>
      cases hb2 : attemptOk (env.fetchAttempt url 2) <;>
        cases hb3 : attemptOk (env.fetchAttempt url 3) <;>
          simp [firstSuccessAttempt, hb1, hb2, hb3] at hk <;>
            subst hk <;>
              simp [runAttempts_cons, runAttempts_nil, hb1, hb2, hb3]
  · intro hk
    rw [hrun]
    cases hb1 : attemptOk (env.fetchAttempt url 1) <;>
      cases hb2 : attemptOk (env.fetchAttempt url 2) <;>
        cases hb3 : attemptOk (env.fetchAttempt url 3) <;>
          simp [firstSuccessAttempt, hb1, hb2, hb3] at hk <;>
            simp [runAttempts_cons, runAttempts_nil, hb1, hb2, hb3]

theorem C6_retry_budget_witness :
    validUrl "http://a.png" = true ∧
    ((processItem envW fsEmpty "http://a.png").fetches ≤ 3 ∧
     (∀ k : Nat, firstSuccessAttempt envW "http://a.png" = some k →
       (processItem envW fsEmpty "http://a.png").fetches = k ∧
       (processItem envW fsEmpty "http://a.png").waits =
         List.take (k - 1) [1500, 3000]) ∧
     (firstSuccessAttempt envW "http://a.png" = none →
       (processItem envW fsEmpty "http://a.png").fetches = 3 ∧
       (processItem envW fsEmpty "http://a.png").waits = [1500, 3000] ∧
       (processItem envW fsEmpty "http://a.png").result = "") ∧
     (∀ q : String, q ≠ localPath envW "http://a.png" →
       (processItem envW fsEmpty "http://a.png").fs q = fsEmpty q) ∧
     (∀ (fs2 : Fs) (urls : List String),
       (downloadCharts envW fs2 urls).length = urls.length)) :=
  ⟨by decide, C6_retry_budget envW fsEmpty "http://a.png" (by decide)
    (by decide)⟩

/-! ## Claim theorems: mutex discipline -/

lemma grantSeq_take (k : Nat) : ∀ s : MutexState,
    grantSeq s k = s.mutexQueue.take k := by
  induction k with
  | zero => intro s; simp [grantSeq]
  | succ j ih =>
    intro s
    cases hq : s.mutexQueue with
    | nil => simp [grantSeq, releaseLock, hq]
    | cons a rest => simp [grantSeq, releaseLock, hq, ih]

lemma withLock_discipline {α : Type} (body : OpBody α) (w : Nat) :
    lockDiscipline (withLock body ⟨false, []⟩ w) := by
  refine ⟨⟨body.events.map LockEvent.work, rfl, ?_⟩, rfl⟩
  intro e he
  rcases List.mem_map.1 he with ⟨t, _, rfl⟩
  exact ⟨t, rfl⟩

/-- Claim C2: every public session operation acquires the mutex first,
performs only session work while holding it, and releases it as its last
event on every exit path (the body's outcome, error or ok, never changes
the trace shape), leaving the mutex free; the combined operation holds one
single lock span across the catalog sub-step and the chart sub-step, whose
events stay contiguous; queued waiters are appended in arrival order and
granted strictly in queue (FIFO) order by successive releases. -/
theorem C2_mutex_discipline {α β γ : Type} (catalogBody : OpBody α)
    (chartBody : OpBody β) (ensureBody : OpBody γ)
    (s : MutexState) (w v : Nat) (hfree : s = ⟨false, []⟩) :
    lockDiscipline (fetchProductCatalog catalogBody s w) ∧
    lockDiscipline (fetchChartUrls chartBody s w) ∧
    lockDiscipline (fetchCatalogAndChartUrls catalogBody chartBody s w) ∧
    lockDiscipline (fetchChartUrlsForPpt ensureBody chartBody s w) ∧
    (fetchCatalogAndChartUrls catalogBody chartBody s w).2.1 =
      LockEvent.acquire ::
        (seqBody catalogBody chartBody).events.map LockEvent.work ++
        [LockEvent.release] ∧
    (∀ a : α, catalogBody.outcome = Except.ok a →
      (seqBody catalogBody chartBody).events =
        catalogBody.events ++ chartBody.events) ∧
    (∀ (s2 : MutexState) (k : Nat), grantSeq s2 k = s2.mutexQueue.take k) ∧
    (∀ s3 : MutexState, s3.mutexLocked = true →
      (acquireLock v s3).1.mutexQueue = s3.mutexQueue ++ [v]) := by
  subst hfree
  refine ⟨withLock_discipline _ w, withLock_discipline _ w,
    withLock_discipline _ w, withLock_discipline _ w, rfl, ?_,
    fun s2 k => grantSeq_take k s2, ?_⟩
  · intro a ha
    unfold seqBody
    rw [ha]
    cases hco : chartBody.outcome <;> simp
  · intro s3 h3
    unfold acquireLock
    rw [h3]
    simp

theorem C2_mutex_discipline_witness :
    lockDiscipline (fetchProductCatalog bodyOkW ⟨false, []⟩ 0) ∧
    lockDiscipline (fetchChartUrls bodyErrW ⟨false, []⟩ 0) ∧
    lockDiscipline (fetchCatalogAndChartUrls bodyOkW bodyErrW ⟨false, []⟩ 0) ∧
    lockDiscipline (fetchChartUrlsForPpt bodyOkW bodyErrW ⟨false, []⟩ 0) ∧
    (fetchCatalogAndChartUrls bodyOkW bodyErrW ⟨false, []⟩ 0).2.1 =
      LockEvent.acquire ::
        (seqBody bodyOkW bodyErrW).events.map LockEvent.work ++
        [LockEvent.release] ∧
    (∀ a : Nat, bodyOkW.outcome = Except.ok a →
      (seqBody bodyOkW bodyErrW).events = bodyOkW.events ++ bodyErrW.events) ∧
    (∀ (s2 : MutexState) (k : Nat), grantSeq s2 k = s2.mutexQueue.take k) ∧
    (∀ s3 : MutexState, s3.mutexLocked = true →
      (acquireLock 5 s3).1.mutexQueue = s3.mutexQueue ++ [5]) :=
  C2_mutex_discipline bodyOkW bodyErrW bodyOkW ⟨false, []⟩ 0 5 rfl

/-! ## Claim theorems: stability detection -/

/-- Claim C3: the polling step accepts and returns a count only when the
read length is positive, equals the tracked length, the bumped stability
counter reaches the 6-check requirement, the elapsed time has reached the
`minTotalWait` floor, and the re-read performed 1.5 s later still returns
the same length; when every acceptance condition holds but the re-read
returns a different (grown) length, the stability counter is reset to zero
and polling continues instead of returning the premature count. -/
theorem C3_stability_confirmation (arr : Nat → Nat)
    (minTotalWait t lastCount stableChecks c tr : Nat) :
    (waitStep arr minTotalWait t lastCount stableChecks =
        PollStep.ret c tr →
      arr t = c ∧ lastCount = c ∧
      requiredStableChecks ≤ stableChecks + 1 ∧ minTotalWait ≤ t ∧
      arr (t + 1500) = c ∧ tr = t + 1500) ∧
    (arr t = lastCount → 0 < lastCount →
      requiredStableChecks ≤ stableChecks + 1 → minTotalWait ≤ t →
      arr (t + 1500) ≠ lastCount →
      waitStep arr minTotalWait t lastCount stableChecks =
        PollStep.cont (t + 1500 + 500) (arr (t + 1500)) 0) := by
  constructor
  · intro h
    unfold waitStep at h
    split_ifs at h with h0 he hc hcf
    injection h with h1 h2
    exact ⟨h1, he.symm.trans h1, hc.1, hc.2, hcf.trans h1, h2.symm⟩
  · intro he hpos hsc hmin hne
    have h0 : 0 < arr t := he ▸ hpos
    have hcf : ¬ arr (t + 1500) = arr t := fun hh => hne (hh.trans he)
    unfold waitStep
    rw [if_pos h0, if_pos he, if_pos ⟨hsc, hmin⟩, if_neg hcf]

theorem C3_stability_confirmation_witness :
    (arrConstW 4000 = 5 ∧ (5 : Nat) = 5 ∧
      requiredStableChecks ≤ 5 + 1 ∧ 2000 ≤ 4000 ∧
      arrConstW (4000 + 1500) = 5 ∧ (5500 : Nat) = 4000 + 1500) ∧
    waitStep arrGrowW 4000 4000 5 5 =
      PollStep.cont (4000 + 1500 + 500) (arrGrowW (4000 + 1500)) 0 :=
  ⟨(C3_stability_confirmation arrConstW 2000 4000 5 5 5 5500).1 (by decide),
   (C3_stability_confirmation arrGrowW 4000 4000 5 5 0 0).2 (by decide)
     (by decide) (by decide) (by decide) (by decide)⟩

/-! ## Claim theorems: chart fetch fallback and cold/warm bounds -/

/-- Claim C7: when the stability wait after product selection and the wait
after the manual `cercaImmagini` fallback both report zero entries,
`_fetchChartUrls` returns the valid empty result
`(productName := "", date := "", steps := [])` as a normal value, not a
thrown error. -/
theorem C7_empty_result (env : SessionEnv) (page : ChartPage)
    (productId : String) (fc t0 : Nat)
    (hlog : env.isLoggedIn = true)
    (hw1 : (chartsWait1 page productId fc
      (t0 + ensureSearchPageTime env)).count = 0)
    (hw2 : (chartsWait2 page productId fc
      (t0 + ensureSearchPageTime env)).count = 0) :
    (fetchChartUrlsCore env page productId fc t0).1 =
      Except.ok { productName := "", date := "", steps := [] } := by
  simp [fetchChartUrlsCore, hlog, hw1, hw2]

theorem C7_empty_result_witness :
    (fetchChartUrlsCore envSW pageZW "42" 0 0).1 =
      Except.ok { productName := "", date := "", steps := [] } :=
  C7_empty_result envSW pageZW "42" 0 0 rfl (by decide) (by decide)

/-- Claim C9: the first two `_waitForStableArray` calls of a session (the
incremented `fetchCount` being at most 2) use the cold bounds — 30 s
ceiling, 4 s floor — and all later calls use the warm bounds — 20 s
ceiling, 2 s floor; every call advances `fetchCount` by one, so a
`_fetchChartUrls` run that takes the zero-entry fallback consumes two
fetches of the counter and a run that does not consumes one. -/
theorem C9_cold_warm_bounds (arr : Nat → Nat) (fc : Nat) (env : SessionEnv)
    (page : ChartPage) (productId : String) (t0 : Nat)
    (hlog : env.isLoggedIn = true) :
    (fc < 2 →
      waitMaxWait (fc + 1) = 30000 ∧ waitMinTotalWait (fc + 1) = 4000) ∧
    (2 ≤ fc →
      waitMaxWait (fc + 1) = 20000 ∧ waitMinTotalWait (fc + 1) = 2000) ∧
    (waitForStableArray arr fc).fc = fc + 1 ∧
    ((chartsWait1 page productId fc
        (t0 + ensureSearchPageTime env)).count = 0 →
      (fetchChartUrlsCore env page productId fc t0).2.1 = fc + 2) ∧
    ((chartsWait1 page productId fc
        (t0 + ensureSearchPageTime env)).count ≠ 0 →
      (fetchChartUrlsCore env page productId fc t0).2.1 = fc + 1) := by
  refine ⟨?_, ?_, rfl, ?_, ?_⟩
  · intro h
    have h2 : fc + 1 ≤ 2 := by omega
    simp [waitMaxWait, waitMinTotalWait, h2]
  · intro h
    have h2 : ¬ fc + 1 ≤ 2 := by omega
    simp [waitMaxWait, waitMinTotalWait, h2]
  · intro h0
    by_cases hw2 : (chartsWait2 page productId fc
        (t0 + ensureSearchPageTime env)).count = 0 <;>
      simp [fetchChartUrlsCore, hlog, h0, hw2] <;> rfl
  · intro h0
    simp [fetchChartUrlsCore, hlog, h0]
    rfl

theorem C9_cold_warm_bounds_witness :
    (0 : Nat) < 2 ∧
    (waitMaxWait (0 + 1) = 30000 ∧ waitMinTotalWait (0 + 1) = 4000) ∧
    (waitForStableArray arrConstW 0).fc = 0 + 1 ∧
    (chartsWait1 pageZW "42" 0 (0 + ensureSearchPageTime envSW)).count = 0 ∧
    (fetchChartUrlsCore envSW pageZW "42" 0 0).2.1 = 0 + 2 :=
  ⟨by decide,
   (C9_cold_warm_bounds arrConstW 0 envSW pageZW "42" 0 rfl).1 (by decide),
   (C9_cold_warm_bounds arrConstW 0 envSW pageZW "42" 0 rfl).2.2.1,
   by decide,
   (C9_cold_warm_bounds arrConstW 0 envSW pageZW "42" 0 rfl).2.2.2.1
     (by decide)⟩

/-! ## Claim theorems: idempotent product-type selection -/

/-- Claim C8: `_ensureProductType` first reads the current `#slArea` value
and performs no reload at all when it already equals the mapped value of
the requested type; composing two calls with the same product type, the
second call never reloads, so the remote list-reload action runs at most
once across the two calls. -/
theorem C8_ensure_idempotent (productType slArea : String) :
    (slArea = typeValueMap productType →
      ensureProductType productType slArea = ⟨slArea, 0⟩) ∧
    (ensureProductType productType
      (ensureProductType productType slArea).slArea).reloads = 0 ∧
    (ensureProductType productType slArea).reloads +
      (ensureProductType productType
        (ensureProductType productType slArea).slArea).reloads ≤ 1 := by
  by_cases h : slArea = typeValueMap productType <;>
    simp [ensureProductType, h]

theorem C8_ensure_idempotent_witness :
    ("6" = typeValueMap "RADAR" →
      ensureProductType "RADAR" "6" = ⟨"6", 0⟩) ∧
    ensureProductType "RADAR" "6" = ⟨"6", 0⟩ ∧
    (ensureProductType "RADAR"
      (ensureProductType "RADAR" "1").slArea).reloads = 0 ∧
    (ensureProductType "RADAR" "1").reloads +
      (ensureProductType "RADAR"
        (ensureProductType "RADAR" "1").slArea).reloads ≤ 1 :=
  ⟨(C8_ensure_idempotent "RADAR" "6").1,
   (C8_ensure_idempotent "RADAR" "6").1 (by decide),
   (C8_ensure_idempotent "RADAR" "1").2.1,
   (C8_ensure_idempotent "RADAR" "1").2.2⟩

/-! ## Claim theorems: unguarded preview fetch -/

/-- Claim C10: `fetchImage` guards only on the HTTP status flag: every ok
response — including a 200 text/html page — is returned to the caller as a
base64 data URL built from the body, with no content-type exclusion and no
minimum-size check (and the model writes no cache state); a non-ok
response raises an error; a non-http input URL is absolutised by prefixing
the portal base URL after stripping one leading slash. -/
theorem C10_fetchImage_unguarded (env : FetchEnv) (imageUrl : String) :
    ((env.resp (resolveImageUrl imageUrl)).ok = true →
      fetchImage env imageUrl = Except.ok
        ("data:" ++
          (if (env.resp (resolveImageUrl imageUrl)).contentType = ""
           then "image/png"
           else (env.resp (resolveImageUrl imageUrl)).contentType) ++
          ";base64," ++
          env.b64 (env.resp (resolveImageUrl imageUrl)).body)) ∧
    ((env.resp (resolveImageUrl imageUrl)).ok = false →
      fetchImage env imageUrl = Except.error
        ("Failed to fetch image: " ++
          toString (env.resp (resolveImageUrl imageUrl)).status)) ∧
    (strStarts imageUrl "http" = false →
      resolveImageUrl imageUrl =
        PROMETEO_BASE_URL ++ "/" ++ dropLeadingSlash imageUrl) := by
  refine ⟨?_, ?_, ?_⟩
  · intro hok
    simp [fetchImage, hok]
  · intro hok
    simp [fetchImage, hok]
  · intro hns
    simp [resolveImageUrl, hns]

theorem C10_fetchImage_unguarded_witness :
    fetchImage fenvW "/img/x.png" =
      Except.ok "data:text/html;base64,AQID" ∧
    fetchImage fenvErrW "http://a" =
      Except.error "Failed to fetch image: 404" ∧
    resolveImageUrl "/img/x.png" =
      PROMETEO_BASE_URL ++ "/" ++ dropLeadingSlash "/img/x.png" :=
  ⟨(C10_fetchImage_unguarded fenvW "/img/x.png").1 (by decide),
   (C10_fetchImage_unguarded fenvErrW "http://a").2.1 (by decide),
   (C10_fetchImage_unguarded fenvW "/img/x.png").2.2 (by decide)⟩

end Meteobriefing
